import Mathlib

/-!
Verification development for the DataCapture OEE data-collection service.

The definitions below are a shallow embedding of the Python sources:
  - `src/data_collector_oee_bk.py` (V2 collector: `BreakDetector`, `OEEDataCollector`),
  - `src/data_collector_oee.py` (V1 collector, where its behaviour differs),
  - `src/opcua_connection_manager.py` (`OPCUAConnectionManager`).

Modelling conventions:
  - wall-clock datetimes are absolute seconds (`ℤ`); `todOf` projects the
    time-of-day in seconds (Python `datetime.time()`), `dateStart` projects
    midnight of the same day (`datetime.combine(date, ...)` arithmetic);
  - the weekday (Python `isoweekday()`, 1 = Monday .. 7 = Sunday) is passed
    separately where the source consults it;
  - PLC floats (`ta_percent`, `fault_time_sec`, cycle times) are modelled as
    `ℚ`; `roundDp` models Python `round(x, d)` (the tie-at-half behaviour of
    binary floats is never exercised by any claim);
  - the PostgreSQL tables are lists of rows; `INSERT` appends,
    `INSERT .. ON CONFLICT .. DO UPDATE` is `upsertQuality`, `UPDATE .. WHERE`
    is a `List.map` that rewrites the matching rows; the serial primary key of
    `actual_breaks` is modelled as `length + 1`.
-/

namespace DataCapture

/-- Seconds in a day (Python `datetime` day arithmetic). -/
def secondsPerDay : ℤ := 86400

/-- Time of day in seconds of an absolute timestamp (Python `now.time()`). -/
def todOf (t : ℤ) : ℕ := (t % secondsPerDay).toNat

/-- Midnight of the day of `t` (Python `datetime.combine(now.date(), ...)` base). -/
def dateStart (t : ℤ) : ℤ := t - t % secondsPerDay

/-- Clock time `h:m:s` as seconds of day, for readable constants. -/
def hms (h m s : ℕ) : ℕ := h * 3600 + m * 60 + s

/-- Python `round(q, d)` on the rationals standing in for the PLC floats
(Python's float `round` resolves exact ties to even; no claim exercises a
tie, so Mathlib's round-half-up agrees on every input considered). -/
def roundDp (d : ℕ) (q : ℚ) : ℚ := (round (q * (10 : ℚ) ^ d) : ℤ) / (10 : ℚ) ^ d

/-- One availability snapshot per polled unit, as produced by
`OEEDataCollector.read_ta_data` (`sequence_id`, `ta_percent`,
`blocked_time_sec`, `starved_time_sec`, `fault_time_sec`). -/
structure TASnapshot where
  sequence_id : ℕ
  ta_percent : ℚ
  blocked_time_sec : ℚ
  starved_time_sec : ℚ
  fault_time_sec : ℚ
deriving DecidableEq

/-- The freeze key of a snapshot: `(round(ta_percent, 4), round(fault_time_sec, 3))`
(`BreakDetector.check_frozen`). -/
def freezeKey (s : TASnapshot) : ℚ × ℚ :=
  (roundDp 4 s.ta_percent, roundDp 3 s.fault_time_sec)

/-- `BreakDetector.FREEZE_THRESHOLD`: consecutive frozen readings to confirm a break. -/
def FREEZE_THRESHOLD : ℕ := 3

/-- `BreakDetector.EARLY_LATE_TOLERANCE_MIN`: minutes under which a break
start/end is considered on-time. -/
def EARLY_LATE_TOLERANCE_MIN : ℤ := 2

/-- The freeze-tracking part of `BreakDetector` state: `prev_ta` (a dict from
sequence id to the last stored key) and `frozen_count`. -/
structure FreezeState where
  prev_ta : List (ℕ × (ℚ × ℚ))
  frozen_count : ℕ
deriving DecidableEq

/-- Dictionary lookup (`seq_id in self.prev_ta` / `self.prev_ta[seq_id]`). -/
def dictFind (k : ℕ) : List (ℕ × (ℚ × ℚ)) → Option (ℚ × ℚ)
  | [] => none
  | (k2, v) :: rest => if k2 = k then some v else dictFind k rest

/-- Dictionary update (`self.prev_ta[seq_id] = current_key`). -/
def dictInsert (k : ℕ) (v : ℚ × ℚ) : List (ℕ × (ℚ × ℚ)) → List (ℕ × (ℚ × ℚ))
  | [] => [(k, v)]
  | (k2, v2) :: rest => if k2 = k then (k, v) :: rest else (k2, v2) :: dictInsert k v rest

/-- `BreakDetector.check_frozen`: on an empty batch return not-frozen without
touching the tracker; otherwise compare the first snapshot's rounded key with
the stored previous key for that unit, incrementing the consecutive count on
equality, resetting it to 0 on difference, and leaving it unchanged when the
unit has no stored key yet; finally store the current key and report frozen
when the count has reached `FREEZE_THRESHOLD`. -/
def checkFrozen (ta_data : List TASnapshot) (st : FreezeState) : Bool × FreezeState :=
  match ta_data with
  | [] => (false, st)
  | ref :: _ =>
    let seq := ref.sequence_id
    let current_key := freezeKey ref
    let cnt : ℕ :=
      match dictFind seq st.prev_ta with
      | some prev => if prev = current_key then st.frozen_count + 1 else 0
      | none => st.frozen_count
    (decide (cnt ≥ FREEZE_THRESHOLD), ⟨dictInsert seq current_key st.prev_ta, cnt⟩)

/-- One `break_definitions` row (`BreakDetector.load_scheduled_breaks`). -/
structure BreakDef where
  id : ℕ
  day_of_week : ℕ
  shift_number : ℕ
  break_name : String
  start_time : ℕ
  end_time : ℕ
  duration_minutes : ℕ
deriving DecidableEq

/-- The shift derivation used inside `BreakDetector._find_scheduled_break` and
`BreakDetector.is_in_scheduled_break_time`: fixed boundaries
06:00 / 14:00 / 22:00, with no weekday dependence. -/
def findBreakShift (t : ℕ) : ℕ :=
  if hms 6 0 0 ≤ t ∧ t < hms 14 0 0 then 1
  else if hms 14 0 0 ≤ t ∧ t < hms 22 0 0 then 2
  else 3

/-- `BreakDetector._find_scheduled_break`: derive the shift from the time of
day, then return the first loaded break of that shift whose window widened by
5 minutes on each side (times wrapped through `.time()`, i.e. modulo one day)
contains the current time of day. -/
def findScheduledBreak (breaks : List BreakDef) (now : ℤ) : Option BreakDef :=
  let t := todOf now
  let shift := findBreakShift t
  breaks.find? (fun brk =>
    decide (brk.shift_number = shift) &&
    decide ((brk.start_time + 86400 - 300) % 86400 ≤ t) &&
    decide (t ≤ (brk.end_time + 300) % 86400))

/-- `BreakDetector.is_in_scheduled_break_time`: same shift derivation, but the
break window is taken exactly, with no buffer. -/
def isInScheduledBreakTime (breaks : List BreakDef) (t : ℕ) : Bool :=
  let shift := findBreakShift t
  breaks.any (fun brk =>
    decide (brk.shift_number = shift) &&
    decide (brk.start_time ≤ t) &&
    decide (t ≤ brk.end_time))

/-- One `actual_breaks` row. -/
structure BreakRow where
  id : ℕ
  start_time : ℤ
  end_time : Option ℤ
  shift_number : ℕ
  is_scheduled : Bool
  scheduled_break_id : ℕ
  early_start_minutes : ℤ
  duration_minutes : Option ℤ
  late_end_minutes : Option ℤ
deriving DecidableEq

/-- `BreakDetector._insert_break_start` (V2, `data_collector_oee_bk.py`):
`early = max(0, (scheduled_start - actual_start) // 60)`, clamped to 0 when
strictly under the 2-minute tolerance; the new row is inserted open
(`end_time = NULL`) and its serial id returned. -/
def insertBreakStart (brk : BreakDef) (actual_start : ℤ) (db : List BreakRow) :
    ℕ × List BreakRow :=
  let scheduled_start := dateStart actual_start + (brk.start_time : ℤ)
  let diff_seconds := scheduled_start - actual_start
  let early0 := max 0 (Int.fdiv diff_seconds 60)
  let early_minutes := if early0 < EARLY_LATE_TOLERANCE_MIN then 0 else early0
  let row_id := db.length + 1
  (row_id,
   db ++ [{ id := row_id, start_time := actual_start, end_time := none,
            shift_number := brk.shift_number, is_scheduled := true,
            scheduled_break_id := brk.id, early_start_minutes := early_minutes,
            duration_minutes := none, late_end_minutes := none }])

/-- The late-end minutes stored by `BreakDetector._update_break_end` in
`data_collector_oee_bk.py`: `max(0, (actual_end - scheduled_end) // 60)`,
with no tolerance clamp applied to the stored value. -/
def lateEndMinutesStored (brk : BreakDef) (actual_end : ℤ) : ℤ :=
  max 0 (Int.fdiv (actual_end - (dateStart actual_end + (brk.end_time : ℤ))) 60)

/-- `BreakDetector._update_break_end` (V2, `data_collector_oee_bk.py`): set
`end_time = actual_end`, `duration_minutes = (actual_end - start_time) // 60`
(the row's own stored `start_time`), and `late_end_minutes` as in
`lateEndMinutesStored`, on the row with the given id. -/
def updateBreakEnd (break_id : ℕ) (brk : BreakDef) (actual_end : ℤ)
    (db : List BreakRow) : List BreakRow :=
  db.map (fun r =>
    if r.id = break_id then
      { r with end_time := some actual_end,
               duration_minutes := some (Int.fdiv (actual_end - r.start_time) 60),
               late_end_minutes := some (lateEndMinutesStored brk actual_end) }
    else r)

/-- The compliance classification `_update_break_end` (V2) returns for its log
line: late when the computed minutes reach the tolerance, on-time otherwise. -/
def breakEndReportedLate (brk : BreakDef) (actual_end : ℤ) : Bool :=
  decide (lateEndMinutesStored brk actual_end ≥ EARLY_LATE_TOLERANCE_MIN)

/-- `BreakDetector._update_break_end` in `data_collector_oee.py` (V1): same
update, except the stored `late_end_minutes` is clamped to 0 when strictly
under the 2-minute tolerance. -/
def updateBreakEndOee (break_id : ℕ) (brk : BreakDef) (actual_end : ℤ)
    (db : List BreakRow) : List BreakRow :=
  let late0 := lateEndMinutesStored brk actual_end
  let late_minutes := if late0 < EARLY_LATE_TOLERANCE_MIN then 0 else late0
  db.map (fun r =>
    if r.id = break_id then
      { r with end_time := some actual_end,
               duration_minutes := some (Int.fdiv (actual_end - r.start_time) 60),
               late_end_minutes := some late_minutes }
    else r)

/-- The mutable state of `BreakDetector` (besides the loaded schedule). -/
structure DetectorState where
  freeze : FreezeState
  in_break : Bool
  break_detected_at : Option ℤ
  current_scheduled : Option BreakDef
  current_break_id : Option ℕ
deriving DecidableEq

/-- `BreakDetector.__init__`: empty tracker, not in a break, nothing open. -/
def initDetector : DetectorState :=
  { freeze := ⟨[], 0⟩, in_break := false, break_detected_at := none,
    current_scheduled := none, current_break_id := none }

/-- `BreakDetector.process` (V2): run freeze detection, then on the
not-in-break-and-frozen edge look up a scheduled break — a match opens a
`BreakRecord` and marks the detector in-break, no match does nothing — and on
the in-break-and-not-frozen edge close the open record (when one is tracked)
and clear the in-break state. -/
def process (breaks : List BreakDef) (now : ℤ) (ta_data : List TASnapshot)
    (st : DetectorState) (db : List BreakRow) : DetectorState × List BreakRow :=
  let fr := checkFrozen ta_data st.freeze
  let is_frozen := fr.1
  let st1 := { st with freeze := fr.2 }
  if !st1.in_break && is_frozen then
    match findScheduledBreak breaks now with
    | some scheduled =>
      let ins := insertBreakStart scheduled now db
      ({ st1 with in_break := true, break_detected_at := some now,
                  current_scheduled := some scheduled,
                  current_break_id := some ins.1 }, ins.2)
    | none => (st1, db)
  else if st1.in_break && !is_frozen then
    let db2 :=
      match st1.current_break_id, st1.current_scheduled with
      | some bid, some scheduled => updateBreakEnd bid scheduled now db
      | _, _ => db
    ({ st1 with in_break := false, break_detected_at := none,
                current_scheduled := none, current_break_id := none }, db2)
  else (st1, db)

/-- Iterated `process` over a list of collection ticks `(now, ta_data)`. -/
def runProcess (breaks : List BreakDef) (ticks : List (ℤ × List TASnapshot))
    (init : DetectorState × List BreakRow) : DetectorState × List BreakRow :=
  ticks.foldl (fun acc tick => process breaks tick.1 tick.2 acc.1 acc.2) init

/-- Number of open break records (`end_time = NULL`) in the table. -/
def openCount (db : List BreakRow) : ℕ :=
  db.countP (fun r => r.end_time.isNone)

/-- Iterated `checkFrozen` over a list of snapshot batches, returning the last
frozen verdict together with the final tracker state. -/
def runFreezeBatches (batches : List (List TASnapshot)) (st : FreezeState) :
    Bool × FreezeState :=
  batches.foldl (fun acc b => checkFrozen b acc.2) (false, st)

/-- `OEEDataCollector._get_current_shift_and_hour` (V2,
`data_collector_oee_bk.py`): weekday-dependent shift boundaries
(06:00 / 13:30 / 21:00 on Friday, 06:00 / 14:00 / 22:00 otherwise), and the
hour index within the shift computed from the clock's hour and minute with
Python floor division (so it is an integer that the source then caps at 7). -/
def getCurrentShiftAndHour (weekday : ℕ) (t : ℕ) : ℕ × ℤ :=
  let shift_2_start : ℕ := if weekday = 5 then hms 13 30 0 else hms 14 0 0
  let shift_3_start : ℕ := if weekday = 5 then hms 21 0 0 else hms 22 0 0
  let hour : ℤ := (t / 3600 : ℕ)
  let minute : ℤ := ((t % 3600) / 60 : ℕ)
  if hms 6 0 0 ≤ t ∧ t < shift_2_start then
    (1, min (Int.fdiv ((hour - 6) * 60 + minute) 60) 7)
  else if shift_2_start ≤ t ∧ t < shift_3_start then
    (2, min (Int.fdiv ((hour - 14) * 60 + minute) 60) 7)
  else if shift_3_start ≤ t then
    (3, min (Int.fdiv ((hour - 22) * 60 + minute) 60) 7)
  else
    (3, min (Int.fdiv ((hour + 2) * 60 + minute) 60) 7)

/-- One cycle-time reading (`OEEDataCollector.read_cycle_times`). -/
structure CycleReading where
  sequence_id : ℕ
  cycle_time_sec : ℚ
  desired_cycle_sec : ℚ
deriving DecidableEq

/-- `TWIN_SYNC_STATIONS` in `OEEDataCollector.store_cycle_times` (V2). -/
def TWIN_SYNC_STATIONS : List ℕ := [47, 48]

/-- `SKIP_CYCLE_THRESHOLD` in `OEEDataCollector.store_cycle_times` (V2). -/
def SKIP_CYCLE_THRESHOLD : ℚ := 10

/-- The domain filter of `OEEDataCollector.store_cycle_times` (V2): drop a
reading exactly when its unit is a twin-sync station and its cycle time is
strictly below the skip threshold. -/
def filteredCycles (cycles : List CycleReading) : List CycleReading :=
  cycles.filter (fun c =>
    !(TWIN_SYNC_STATIONS.contains c.sequence_id &&
      decide (c.cycle_time_sec < SKIP_CYCLE_THRESHOLD)))

/-- One `cycle_times` row. -/
structure CycleRow where
  time : ℤ
  sequence_id : ℕ
  cycle_time_seconds : ℚ
  desired_cycle_time_seconds : ℚ
  deviation_seconds : ℚ
  deviation_percent : ℚ
deriving DecidableEq

/-- The `cycle_times` row built for one reading in
`OEEDataCollector.store_cycle_times`. -/
def cycleRowOf (now : ℤ) (c : CycleReading) : CycleRow :=
  { time := now, sequence_id := c.sequence_id,
    cycle_time_seconds := c.cycle_time_sec,
    desired_cycle_time_seconds := c.desired_cycle_sec,
    deviation_seconds := c.cycle_time_sec - c.desired_cycle_sec,
    deviation_percent :=
      if 0 < c.desired_cycle_sec then
        (c.cycle_time_sec - c.desired_cycle_sec) / c.desired_cycle_sec * 100
      else 0 }

/-- `OEEDataCollector.store_cycle_times` (V2): filter, then insert a row per
surviving reading (the early returns on empty input are the empty append). -/
def storeCycleTimes (now : ℤ) (cycles : List CycleReading) (tbl : List CycleRow) :
    List CycleRow :=
  tbl ++ (filteredCycles cycles).map (cycleRowOf now)

/-- One `technical_availability` row. -/
structure TARow where
  time : ℤ
  sequence_id : ℕ
  ta_percent : ℚ
  fault_time_seconds : ℚ
  blocked_time_seconds : ℚ
  starved_time_seconds : ℚ
deriving DecidableEq

/-- `OEEDataCollector.store_ta_data`: unconditional insert of one row per
snapshot. -/
def storeTAData (now : ℤ) (ta_data : List TASnapshot) (tbl : List TARow) :
    List TARow :=
  tbl ++ ta_data.map (fun s =>
    { time := now, sequence_id := s.sequence_id, ta_percent := s.ta_percent,
      fault_time_seconds := s.fault_time_sec,
      blocked_time_seconds := s.blocked_time_sec,
      starved_time_seconds := s.starved_time_sec })

/-- The quality-counter reading of one tick
(`OEEDataCollector.read_quality_counters`), or `none` when the read failed. -/
structure QualityCounters where
  shift : ℕ
  hour : ℤ
  good : ℕ
  reject : ℕ
  rework : ℕ
deriving DecidableEq

/-- One `quality_counters` row. -/
structure QualityRow where
  time : ℤ
  shift_number : ℕ
  hour_index : ℤ
  good_parts : ℕ
  reject_parts : ℕ
  rework_parts : ℕ
deriving DecidableEq

/-- The conflict key of the `quality_counters` upsert, exactly as written in
the SQL: `ON CONFLICT (time, shift_number, hour_index)`. -/
def qualityKey (r : QualityRow) : ℤ × ℕ × ℤ :=
  (r.time, r.shift_number, r.hour_index)

/-- The `INSERT .. ON CONFLICT (time, shift_number, hour_index) DO UPDATE` of
`OEEDataCollector.store_quality_counters`: when a row with the same conflict
key exists, overwrite its counter columns, otherwise append a new row. -/
def upsertQuality (tbl : List QualityRow) (r : QualityRow) : List QualityRow :=
  if tbl.any (fun q => decide (qualityKey q = qualityKey r)) then
    tbl.map (fun q =>
      if qualityKey q = qualityKey r then
        { q with good_parts := r.good_parts, reject_parts := r.reject_parts,
                 rework_parts := r.rework_parts }
      else q)
  else tbl ++ [r]

/-- `OEEDataCollector.store_quality_counters`: no-op on a failed read,
otherwise upsert the row timestamped with the current wall clock. -/
def storeQualityCounters (now : ℤ) (counters : Option QualityCounters)
    (tbl : List QualityRow) : List QualityRow :=
  match counters with
  | none => tbl
  | some c =>
    upsertQuality tbl
      { time := now, shift_number := c.shift, hour_index := c.hour,
        good_parts := c.good, reject_parts := c.reject, rework_parts := c.rework }

/-- The persisted tables touched by one collection tick. -/
structure Store where
  cycle_times : List CycleRow
  technical_availability : List TARow
  quality_counters : List QualityRow
  actual_breaks : List BreakRow
deriving DecidableEq

/-- `OEEDataCollector.collect_once` (V2), given the values the three reads
produced this tick: skip cycle-time persistence exactly when the current time
of day lies in a scheduled break window, always persist TA and quality data,
then feed the unfiltered snapshots to the break detector. -/
def collectOnce (breaks : List BreakDef) (now : ℤ) (cycles : List CycleReading)
    (ta_data : List TASnapshot) (counters : Option QualityCounters)
    (det : DetectorState) (st : Store) : DetectorState × Store :=
  let in_scheduled_break := isInScheduledBreakTime breaks (todOf now)
  let cyc :=
    if in_scheduled_break then st.cycle_times
    else storeCycleTimes now cycles st.cycle_times
  let ta := storeTAData now ta_data st.technical_availability
  let qc := storeQualityCounters now counters st.quality_counters
  let pr := process breaks now ta_data det st.actual_breaks
  (pr.1, { cycle_times := cyc, technical_availability := ta,
           quality_counters := qc, actual_breaks := pr.2 })

/-- `OPCUAConnectionManager.BACKOFF_INTERVALS`. -/
def BACKOFF_INTERVALS : List ℕ := [1, 2, 5, 10, 30, 60]

/-- The connection-manager state the reconnection logic reads and writes. -/
structure ConnectionState where
  is_connected : Bool
  reconnect_attempts : ℕ
deriving DecidableEq

/-- The backoff wait `_attempt_reconnect` computes from the current attempt
counter: `BACKOFF_INTERVALS[min(reconnect_attempts, len - 1)]`. -/
def backoffSeconds (attempts : ℕ) : ℕ :=
  BACKOFF_INTERVALS.getD (min attempts (BACKOFF_INTERVALS.length - 1)) 0

/-- `OPCUAConnectionManager._attempt_reconnect`, with the outcome of the
underlying `client.connect()` call abstracted as a boolean: returns the wait
that was slept before the try, and the new state — the attempt counter is
incremented for the try and reset to 0 when the try succeeds, so it ends at 0
on success and one higher on failure. -/
def attemptReconnect (connectSucceeds : Bool) (st : ConnectionState) :
    ℕ × ConnectionState :=
  let wait := backoffSeconds st.reconnect_attempts
  let st1 := { st with reconnect_attempts := st.reconnect_attempts + 1 }
  if connectSucceeds then
    (wait, { st1 with is_connected := true, reconnect_attempts := 0 })
  else
    (wait, { st1 with is_connected := false })

/-- Iterated reconnection tries with the given outcomes. -/
def runReconnects (outcomes : List Bool) (st : ConnectionState) : ConnectionState :=
  outcomes.foldl (fun s ok => (attemptReconnect ok s).2) st

/-- Count of consecutive failed tries at the end of an outcome sequence,
i.e. the failures since the most recent success. This is the specification's
reading of the attempt counter, stated independently of the code. -/
def trailingFailures (outcomes : List Bool) : ℕ :=
  (outcomes.reverse.takeWhile (fun b => !b)).length

/-- A concrete reference-unit snapshot (unit 47, TA 95.5 %, fault 120 s). -/
def refSnapshot : TASnapshot := ⟨47, 191 / 2, 0, 0, 120⟩

/-- The same unit with a different availability value (a changed freeze key). -/
def refSnapshotDiff : TASnapshot := ⟨47, 90, 0, 0, 120⟩

/-- The freeze tracker as `BreakDetector.__init__` leaves it. -/
def initFreeze : FreezeState := ⟨[], 0⟩

/-- The Shift-1 break `"Morning" 10:00–10:10` used by the spec's examples. -/
def brkMorning : BreakDef := ⟨1, 5, 1, "Morning", hms 10 0 0, hms 10 10 0, 10⟩

/-- A detector state two identical readings after the key was stored: the next
identical reading takes the consecutive count to the freeze threshold. -/
def preFreezeDet : DetectorState :=
  { freeze := ⟨[(47, freezeKey refSnapshot)], 2⟩, in_break := false,
    break_detected_at := none, current_scheduled := none, current_break_id := none }

/-- A detector state inside a tracked break on `brkMorning` (open row id 1). -/
def inBreakDet : DetectorState :=
  { freeze := ⟨[(47, freezeKey refSnapshot)], 5⟩, in_break := true,
    break_detected_at := some 35880, current_scheduled := some brkMorning,
    current_break_id := some 1 }

/-- The open `actual_breaks` row created by a freeze at 09:58:00. -/
def openMorningRow : BreakRow := ⟨1, 35880, none, 1, true, 1, 2, none, none⟩

/-- A Friday Shift-2 (by the weekday-dependent boundaries) break 13:40–13:50. -/
def brkFridayAfternoon : BreakDef := ⟨2, 5, 2, "FridayAfternoon", hms 13 40 0, hms 13 50 0, 10⟩

/-- Quality counters persisted at timestamp 0, shift 1, hour 0. -/
def qRowTickOne : QualityRow := ⟨0, 1, 0, 5, 1, 0⟩

/-- Quality counters for the same shift and hour, read one tick (10 s) later. -/
def qRowTickTwo : QualityRow := ⟨10, 1, 0, 7, 2, 1⟩

/-- Evaluation rule for `round` on concrete rationals (Rat arithmetic does not
reduce in the kernel, so concrete rounding is settled through this bound). -/
lemma round_eval {q : ℚ} {n : ℤ} (h1 : (n : ℚ) ≤ q + 1 / 2) (h2 : q + 1 / 2 < n + 1) :
    round q = n := by
  rw [round_eq]
  exact Int.floor_eq_iff.mpr ⟨h1, h2⟩

/-- The freeze key of the reference snapshot, evaluated. -/
lemma freezeKey_refSnapshot : freezeKey refSnapshot = (191 / 2, 120) := by
  have h1 : round ((191 / 2 : ℚ) * (10 : ℚ) ^ (4 : ℕ)) = 955000 :=
    round_eval (by norm_num) (by norm_num)
  have h2 : round ((120 : ℚ) * (10 : ℚ) ^ (3 : ℕ)) = 120000 :=
    round_eval (by norm_num) (by norm_num)
  simp [freezeKey, refSnapshot, roundDp, h1, h2]
  norm_num

/-- The freeze key of the changed snapshot, evaluated. -/
lemma freezeKey_refSnapshotDiff : freezeKey refSnapshotDiff = (90, 120) := by
  have h1 : round ((90 : ℚ) * (10 : ℚ) ^ (4 : ℕ)) = 900000 :=
    round_eval (by norm_num) (by norm_num)
  have h2 : round ((120 : ℚ) * (10 : ℚ) ^ (3 : ℕ)) = 120000 :=
    round_eval (by norm_num) (by norm_num)
  simp [freezeKey, refSnapshotDiff, roundDp, h1, h2]
  norm_num

/-- A changed availability value yields a different freeze key. -/
lemma freezeKey_ne : freezeKey refSnapshot ≠ freezeKey refSnapshotDiff := by
  rw [freezeKey_refSnapshot, freezeKey_refSnapshotDiff]
  norm_num

lemma refSnapshot_seq : refSnapshot.sequence_id = 47 := rfl

lemma refSnapshotDiff_seq : refSnapshotDiff.sequence_id = 47 := rfl

lemma preFreezeDet_freeze : preFreezeDet.freeze = ⟨[(47, freezeKey refSnapshot)], 2⟩ := rfl

lemma preFreezeDet_in_break : preFreezeDet.in_break = false := rfl

/-- Feeding the reference snapshot to the pre-freeze tracker reaches the
threshold: the detector reports frozen with a consecutive count of 3. -/
lemma checkFrozen_preFreeze :
    checkFrozen [refSnapshot] preFreezeDet.freeze
      = (true, ⟨[(47, freezeKey refSnapshot)], 3⟩) := by
  simp [checkFrozen, preFreezeDet_freeze, dictFind, dictInsert, FREEZE_THRESHOLD,
    refSnapshot_seq]

lemma findSched_0958 : findScheduledBreak [brkMorning] 35880 = some brkMorning := by decide

lemma findSched_09583 : findScheduledBreak [brkMorning] 35910 = some brkMorning := by decide

lemma findSched_0956 : findScheduledBreak [brkMorning] 35760 = some brkMorning := by decide

lemma insertStart_0958 :
    insertBreakStart brkMorning 35880 []
      = (1, [⟨1, 35880, none, 1, true, 1, 2, none, none⟩]) := by decide

lemma insertStart_09583 :
    insertBreakStart brkMorning 35910 []
      = (1, [⟨1, 35910, none, 1, true, 1, 0, none, none⟩]) := by decide

lemma insertStart_0956 :
    insertBreakStart brkMorning 35760 []
      = (1, [⟨1, 35760, none, 1, true, 1, 4, none, none⟩]) := by decide

/-- C1 counterexample: starting from the initial tracker, a run of exactly 3
consecutive ticks with identical freeze keys does NOT transition the tracker
to frozen — the first reading only seeds the stored key, so the consecutive
count is 2 after three identical readings, below the threshold of 3. -/
theorem c1_run_of_three_not_frozen :
    (runFreezeBatches [[refSnapshot], [refSnapshot], [refSnapshot]] initFreeze).1 = false ∧
    (runFreezeBatches [[refSnapshot], [refSnapshot], [refSnapshot]]
      initFreeze).2.frozen_count = 2 := by
  simp [runFreezeBatches, checkFrozen, dictFind, dictInsert, initFreeze, FREEZE_THRESHOLD]

/-- C1 (amended): with the first snapshot of the batch as reference unit and
the key rounded to (4, 3) digits, a run of exactly 4 consecutive identical
ticks transitions the tracker to frozen; runs of exactly 2 or exactly 3 do
not (the first reading seeds the stored key, so the count reaches the
threshold 3 on the fourth identical reading); and after a frozen run of 4
identical readings, a single tick with a differing key resets the consecutive
count to 0 and the tracker reports not-frozen. -/
theorem c1_freeze_threshold :
    (runFreezeBatches [[refSnapshot], [refSnapshot]] initFreeze).1 = false ∧
    (runFreezeBatches [[refSnapshot], [refSnapshot], [refSnapshot]] initFreeze).1 = false ∧
    (runFreezeBatches [[refSnapshot], [refSnapshot], [refSnapshot], [refSnapshot]]
      initFreeze).1 = true ∧
    runFreezeBatches
        [[refSnapshot], [refSnapshot], [refSnapshot], [refSnapshot], [refSnapshotDiff]]
        initFreeze
      = (false, ⟨[(47, freezeKey refSnapshotDiff)], 0⟩) := by
  simp [runFreezeBatches, checkFrozen, dictFind, dictInsert, initFreeze, FREEZE_THRESHOLD,
    freezeKey_ne, refSnapshot_seq, refSnapshotDiff_seq]

/-- C2 counterexample: persisting quality counters for the same
(shiftNumber, hourIndex) on two successive ticks (wall-clock timestamps 0 and
10) leaves TWO rows for that shift and hour, because the SQL conflict key is
(time, shift_number, hour_index) and the timestamps differ — refuting the
claim that at most one row per (shiftNumber, hourIndex) remains. -/
theorem c2_same_hour_two_rows :
    ((upsertQuality (upsertQuality [] qRowTickOne) qRowTickTwo).filter
        (fun q => decide (q.shift_number = 1 ∧ q.hour_index = 0))).length = 2 ∧
    ¬ ((upsertQuality (upsertQuality [] qRowTickOne) qRowTickTwo).filter
        (fun q => decide (q.shift_number = 1 ∧ q.hour_index = 0))).length ≤ 1 := by
  decide

/-- C2 (amended): the idempotent upsert key for quality-counter rows is the
full triple (time, shiftNumber, hourIndex): if no two stored rows share that
triple, the property is preserved by every upsert; an upsert whose triple is
already present overwrites in place (the row count is unchanged); and an
upsert with a fresh triple — in particular a re-read of the same hour at a
different tick timestamp — appends a new row. -/
theorem c2_upsert_key_includes_time (tbl : List QualityRow) (r : QualityRow)
    (hkeys : List.Pairwise (fun a b => qualityKey a ≠ qualityKey b) tbl) :
    List.Pairwise (fun a b => qualityKey a ≠ qualityKey b) (upsertQuality tbl r) ∧
    ((∃ q ∈ tbl, qualityKey q = qualityKey r) →
      (upsertQuality tbl r).length = tbl.length) ∧
    ((¬ ∃ q ∈ tbl, qualityKey q = qualityKey r) →
      upsertQuality tbl r = tbl ++ [r]) := by
  have hany : (tbl.any (fun q => decide (qualityKey q = qualityKey r)) = true)
      ↔ ∃ q ∈ tbl, qualityKey q = qualityKey r := by
    simp [List.any_eq_true]
  by_cases hex : ∃ q ∈ tbl, qualityKey q = qualityKey r
  · have ht : tbl.any (fun q => decide (qualityKey q = qualityKey r)) = true :=
      hany.mpr hex
    have hkey : ∀ q : QualityRow,
        qualityKey (if qualityKey q = qualityKey r then
          { q with good_parts := r.good_parts, reject_parts := r.reject_parts,
                   rework_parts := r.rework_parts } else q) = qualityKey q := by
      intro q
      by_cases h : qualityKey q = qualityKey r
      · rw [if_pos h]
        rfl
      · rw [if_neg h]
    refine ⟨?_, fun _ => ?_, fun hc => absurd hex hc⟩
    · rw [upsertQuality, if_pos ht, List.pairwise_map]
      exact hkeys.imp_of_mem (fun ha hb h => by rw [hkey, hkey]; exact h)
    · rw [upsertQuality, if_pos ht, List.length_map]
  · have ht : tbl.any (fun q => decide (qualityKey q = qualityKey r)) = false := by
      rw [← Bool.not_eq_true, hany]
      exact hex
    refine ⟨?_, fun hc => absurd hc hex, fun _ => ?_⟩
    · rw [upsertQuality, if_neg (by simp [ht])]
      rw [List.pairwise_append]
      refine ⟨hkeys, List.pairwise_singleton _ _, ?_⟩
      intro a ha b hb
      have hb1 : b = r := by simpa using hb
      subst hb1
      intro hk
      exact hex ⟨a, ha, hk⟩
    · rw [upsertQuality, if_neg (by simp [ht])]

/-- C2 witness: overwriting at an existing (time, shift, hour) triple keeps
the row count at 1. -/
theorem c2_upsert_key_includes_time_witness :
    List.Pairwise (fun a b => qualityKey a ≠ qualityKey b) [qRowTickOne] ∧
    (upsertQuality [qRowTickOne] ⟨0, 1, 0, 7, 2, 1⟩).length = [qRowTickOne].length :=
  ⟨by decide,
   (c2_upsert_key_includes_time [qRowTickOne] ⟨0, 1, 0, 7, 2, 1⟩
      (by decide)).2.1 (by decide)⟩

/-- C3 counterexample: on Friday at 13:45 (= 49500 s), the shift used by the
schedule matcher is 1 (fixed 06:00/14:00/22:00 boundaries), while the
weekday-dependent quality-counter derivation yields shift 2 (Friday boundary
13:30); consequently a Friday Shift-2 break covering 13:45 is NOT matched on
a freeze edge at that time. -/
theorem c3_friday_shift_divergence :
    findBreakShift 49500 = 1 ∧
    (getCurrentShiftAndHour 5 49500).1 = 2 ∧
    findBreakShift 49500 ≠ (getCurrentShiftAndHour 5 49500).1 ∧
    findScheduledBreak [brkFridayAfternoon] 49500 = none := by
  decide

/-- C3 (amended): the BreakDetector's schedule matching derives the current
shift from the FIXED boundaries 06:00/14:00/22:00 on every weekday; this
coincides with the weekday-dependent quality-counter derivation on non-Friday
days, but diverges on Friday (whose quality-counter boundaries are
06:00/13:30/21:00), e.g. at Friday 13:45. -/
theorem c3_schedule_match_shift_is_weekday_independent :
    (∀ (weekday : ℕ) (t : ℕ), weekday ≠ 5 →
      findBreakShift t = (getCurrentShiftAndHour weekday t).1) ∧
    (getCurrentShiftAndHour 5 49500).1 ≠ findBreakShift 49500 := by
  constructor
  · intro w t hw
    simp only [findBreakShift, getCurrentShiftAndHour, if_neg hw]
    split_ifs <;> simp_all
  · decide

/-- C3 witness: on a Monday the two derivations agree at 13:45. -/
theorem c3_schedule_match_shift_is_weekday_independent_witness :
    (1 : ℕ) ≠ 5 ∧ findBreakShift 49500 = (getCurrentShiftAndHour 1 49500).1 :=
  ⟨by decide, c3_schedule_match_shift_is_weekday_independent.1 1 49500 (by decide)⟩

/-- C4 counterexample: with the Shift-1 break 10:00–10:10 loaded and a freeze
transition at exactly 09:58:00, the created BreakRecord has
earlyStartMinutes = 2, not 0: the 2-minute tolerance is strict (`< 2`), so
exactly 2 minutes early is NOT treated as on-time. -/
theorem c4_two_minutes_early_not_clamped :
    ((process [brkMorning] 35880 [refSnapshot] preFreezeDet []).2.map
        (fun r => r.early_start_minutes)) = [2] ∧
    ((process [brkMorning] 35880 [refSnapshot] preFreezeDet []).2.map
        (fun r => r.early_start_minutes)) ≠ [0] := by
  simp [process, checkFrozen_preFreeze, preFreezeDet_in_break, findSched_0958,
    insertStart_0958]

/-- C4 (amended): with the Shift-1 break 10:00–10:10 loaded, a freeze
transition at 09:58:00 creates a BreakRecord with earlyStartMinutes = 2
(exactly 2 minutes early reaches the tolerance threshold and is not clamped;
only strictly under 2 minutes is treated as on-time, e.g. a freeze at
09:58:30 yields 0), and a freeze transition at 09:56:00 creates a BreakRecord
with earlyStartMinutes = 4. -/
theorem c4_early_start_minutes :
    (process [brkMorning] 35880 [refSnapshot] preFreezeDet []).2
      = [{ id := 1, start_time := 35880, end_time := none, shift_number := 1,
           is_scheduled := true, scheduled_break_id := 1, early_start_minutes := 2,
           duration_minutes := none, late_end_minutes := none }] ∧
    ((process [brkMorning] 35910 [refSnapshot] preFreezeDet []).2.map
        (fun r => r.early_start_minutes)) = [0] ∧
    ((process [brkMorning] 35760 [refSnapshot] preFreezeDet []).2.map
        (fun r => r.early_start_minutes)) = [4] ∧
    (process [brkMorning] 35880 [refSnapshot] preFreezeDet []).1.in_break = true := by
  simp [process, checkFrozen_preFreeze, preFreezeDet_in_break, findSched_0958,
    findSched_09583, findSched_0956, insertStart_0958, insertStart_09583,
    insertStart_0956]

/-- C5: evaluation at the failing input. Closing the open break (scheduled
end 10:10:00) at 10:11:30 — 90 s late, under the 2-minute tolerance — the V2
code (`data_collector_oee_bk.py`) stores late_end_minutes = 1 with NO clamp,
even though its own compliance classification calls this close on-time; the
V1 code (`data_collector_oee.py`) clamps the stored value to 0 as the claim
states. endTime and durationMinutes are set as claimed (36690 and 13). -/
theorem c5_late_end_clamp_dropped_in_v2 :
    updateBreakEnd 1 brkMorning 36690 [openMorningRow]
      = [{ id := 1, start_time := 35880, end_time := some 36690, shift_number := 1,
           is_scheduled := true, scheduled_break_id := 1, early_start_minutes := 2,
           duration_minutes := some 13, late_end_minutes := some 1 }] ∧
    updateBreakEndOee 1 brkMorning 36690 [openMorningRow]
      = [{ id := 1, start_time := 35880, end_time := some 36690, shift_number := 1,
           is_scheduled := true, scheduled_break_id := 1, early_start_minutes := 2,
           duration_minutes := some 13, late_end_minutes := some 0 }] ∧
    lateEndMinutesStored brkMorning 36690 = 1 ∧
    breakEndReportedLate brkMorning 36690 = false := by
  decide

/-- C9: the twin-sync cycle filter of `store_cycle_times` drops a reading of
8.5 s from a unit in the paired set \x7b47, 48\x7d, keeps a reading of 15 s
from such a unit, and keeps a reading of 8.5 s from any unit outside the
paired set. -/
theorem c9_twin_sync_filter :
    (∀ (cs : List CycleReading) (c : CycleReading),
      (c.sequence_id = 47 ∨ c.sequence_id = 48) → c.cycle_time_sec = 17 / 2 →
      c ∉ filteredCycles cs) ∧
    (∀ (cs : List CycleReading) (c : CycleReading), c ∈ cs →
      (c.sequence_id = 47 ∨ c.sequence_id = 48) → c.cycle_time_sec = 15 →
      c ∈ filteredCycles cs) ∧
    (∀ (cs : List CycleReading) (c : CycleReading), c ∈ cs →
      c.sequence_id ≠ 47 → c.sequence_id ≠ 48 → c.cycle_time_sec = 17 / 2 →
      c ∈ filteredCycles cs) := by
  refine ⟨?_, ?_, ?_⟩
  · intro cs c hseq hct hmem
    rw [filteredCycles, List.mem_filter] at hmem
    rcases hmem with ⟨-, hp⟩
    rcases hseq with h | h <;>
      simp [TWIN_SYNC_STATIONS, SKIP_CYCLE_THRESHOLD, h, hct, List.contains] at hp <;>
      norm_num at hp
  · intro cs c hmem hseq hct
    rw [filteredCycles, List.mem_filter]
    refine ⟨hmem, ?_⟩
    rcases hseq with h | h <;>
      simp [TWIN_SYNC_STATIONS, SKIP_CYCLE_THRESHOLD, h, hct, List.contains] <;>
      norm_num
  · intro cs c hmem h47 h48 hct
    rw [filteredCycles, List.mem_filter]
    refine ⟨hmem, ?_⟩
    simp [TWIN_SYNC_STATIONS, List.contains, h47, h48]

/-- C9 witness: the three concrete readings of the claim, in one batch. -/
theorem c9_twin_sync_filter_witness :
    (⟨47, 17 / 2, 17⟩ : CycleReading) ∉
      filteredCycles [⟨47, 17 / 2, 17⟩, ⟨47, 15, 17⟩, ⟨49, 17 / 2, 17⟩] ∧
    (⟨47, 15, 17⟩ : CycleReading) ∈
      filteredCycles [⟨47, 17 / 2, 17⟩, ⟨47, 15, 17⟩, ⟨49, 17 / 2, 17⟩] ∧
    (⟨49, 17 / 2, 17⟩ : CycleReading) ∈
      filteredCycles [⟨47, 17 / 2, 17⟩, ⟨47, 15, 17⟩, ⟨49, 17 / 2, 17⟩] :=
  ⟨c9_twin_sync_filter.1 _ ⟨47, 17 / 2, 17⟩ (Or.inl rfl) rfl,
   c9_twin_sync_filter.2.1 _ ⟨47, 15, 17⟩ (by simp) (Or.inl rfl) rfl,
   c9_twin_sync_filter.2.2 _ ⟨49, 17 / 2, 17⟩ (by simp) (by decide) (by decide) rfl⟩

lemma openCount_append (a b : List BreakRow) :
    openCount (a ++ b) = openCount a + openCount b := by
  simp [openCount, List.countP_append]

lemma openCount_eq_zero {db : List BreakRow} :
    openCount db = 0 ↔ ∀ r ∈ db, r.end_time ≠ none := by
  rw [openCount, List.countP_eq_zero]
  constructor
  · intro h r hr hnone
    exact h r hr (by simp [hnone])
  · intro h r hr hp
    exact h r hr (Option.isNone_iff_eq_none.mp hp)

/-- Closing a break closes every open row when all of them carry the closed
id, leaving the table with no open row. -/
lemma updateBreakEnd_openCount {db : List BreakRow} {bid : ℕ} {brk : BreakDef} {now : ℤ}
    (h : ∀ r ∈ db, r.end_time = none → r.id = bid) :
    openCount (updateBreakEnd bid brk now db) = 0 := by
  rw [openCount, List.countP_eq_zero]
  intro r2 hr2
  rw [updateBreakEnd] at hr2
  rcases List.mem_map.mp hr2 with ⟨r, hr, rfl⟩
  by_cases hid : r.id = bid
  · simp [hid]
  · simp only [hid, if_false]
    intro hp
    exact hid (h r hr (Option.isNone_iff_eq_none.mp hp))

/-- The inductive invariant of the break-detector state machine: out of a
break the table holds no open row; inside a break exactly the tracked row id
may be open, the tracked id and schedule entry are set, and at most one open
row exists. -/
def detInv (st : DetectorState) (db : List BreakRow) : Prop :=
  (st.in_break = false → openCount db = 0) ∧
  (st.in_break = true →
    openCount db ≤ 1 ∧
    ∃ bid scheduled, st.current_break_id = some bid ∧
      st.current_scheduled = some scheduled ∧
      ∀ r ∈ db, r.end_time = none → r.id = bid)

lemma mem_insertBreakStart {brk : BreakDef} {now : ℤ} {db : List BreakRow} {r : BreakRow}
    (hr : r ∈ (insertBreakStart brk now db).2) : r ∈ db ∨ r.id = db.length + 1 := by
  rw [insertBreakStart] at hr
  rcases List.mem_append.mp hr with hmem | hmem
  · exact Or.inl hmem
  · right
    simp at hmem
    rw [hmem]

lemma openCount_insertBreakStart (brk : BreakDef) (now : ℤ) (db : List BreakRow) :
    openCount (insertBreakStart brk now db).2 = openCount db + 1 := by
  rw [insertBreakStart, openCount_append]
  simp [openCount, List.countP_cons]

/-- One `process` tick preserves the detector invariant. -/
lemma process_inv (breaks : List BreakDef) (now : ℤ) (ta : List TASnapshot)
    (st : DetectorState) (db : List BreakRow) (h : detInv st db) :
    detInv (process breaks now ta st db).1 (process breaks now ta st db).2 := by
  rw [process]
  cases hib : st.in_break with
  | false =>
    have hz : openCount db = 0 := h.1 hib
    cases hfz : (checkFrozen ta st.freeze).1 with
    | false =>
      simp only [hib, hfz]
      norm_num
      exact ⟨fun _ => hz, fun hc => by simp at hc⟩
    | true =>
      cases hfind : findScheduledBreak breaks now with
      | none =>
        simp only [hib, hfz, hfind]
        norm_num
        exact ⟨fun _ => hz, fun hc => by simp at hc⟩
      | some scheduled =>
        simp only [hib, hfz, hfind]
        norm_num
        rw [detInv]
        refine ⟨fun hc => by simp at hc,
          fun _ => ⟨?_, db.length + 1, scheduled, rfl, rfl, ?_⟩⟩
        · rw [openCount_insertBreakStart, hz]
        · intro r hr hnone
          rcases mem_insertBreakStart hr with hmem | hid
          · exact absurd hnone (openCount_eq_zero.mp hz r hmem)
          · exact hid
  | true =>
    rcases h.2 hib with ⟨hle, bid, scheduled, hbid, hsched, hall⟩
    cases hfz : (checkFrozen ta st.freeze).1 with
    | true =>
      simp only [hib, hfz]
      norm_num
      exact ⟨fun hc => by simp at hc,
        fun _ => ⟨hle, bid, scheduled, hbid, hsched, hall⟩⟩
    | false =>
      simp only [hib, hfz, hbid, hsched]
      norm_num
      rw [detInv]
      refine ⟨fun _ => updateBreakEnd_openCount hall, fun hc => by simp at hc⟩

/-- Iterated ticks preserve the detector invariant. -/
lemma runProcess_inv (breaks : List BreakDef) (ticks : List (ℤ × List TASnapshot))
    (init : DetectorState × List BreakRow) (h : detInv init.1 init.2) :
    detInv (runProcess breaks ticks init).1 (runProcess breaks ticks init).2 := by
  induction ticks generalizing init with
  | nil => exact h
  | cons tick rest ih =>
    rw [runProcess, List.foldl_cons]
    exact ih _ (process_inv breaks tick.1 tick.2 init.1 init.2 h)

/-- C6: starting from the initial detector state and an empty break table,
every sequence of `process` ticks (any schedules, timestamps and snapshot
batches) leaves at most one open BreakRecord (`end_time = NULL`) in the
table: a record is created only on a not-in-break-and-frozen edge, which
simultaneously marks the detector in-break, and no further record can be
created until the open record has been closed and the in-break flag cleared. -/
theorem c6_at_most_one_open_break (breaks : List BreakDef)
    (ticks : List (ℤ × List TASnapshot)) :
    openCount (runProcess breaks ticks (initDetector, [])).2 ≤ 1 := by
  have h0 : detInv initDetector [] := by
    constructor
    · intro
      rfl
    · intro hc
      simp [initDetector] at hc
  have h := runProcess_inv breaks ticks (initDetector, []) h0
  cases hib : (runProcess breaks ticks (initDetector, [])).1.in_break with
  | false => rw [h.1 hib]; omega
  | true => exact (h.2 hib).1

lemma backoffSeconds_le_60 (n : ℕ) : backoffSeconds n ≤ 60 := by
  rcases Nat.lt_or_ge n 6 with h | h
  · interval_cases n <;> decide
  · rw [backoffSeconds]
    have hm : min n (BACKOFF_INTERVALS.length - 1) = 5 := by
      simp [BACKOFF_INTERVALS]
      omega
    rw [hm]
    decide

lemma backoffSeconds_mono {m n : ℕ} (h : m ≤ n) : backoffSeconds m ≤ backoffSeconds n := by
  have hm5 : min m 5 ≤ 5 := Nat.min_le_right m 5
  have hn5 : min n 5 ≤ 5 := Nat.min_le_right n 5
  have hmn : min m 5 ≤ min n 5 := min_le_min h le_rfl
  rw [backoffSeconds, backoffSeconds]
  show BACKOFF_INTERVALS.getD (min m 5) 0 ≤ BACKOFF_INTERVALS.getD (min n 5) 0
  set i := min m 5 with hi
  set j := min n 5 with hj
  clear_value i j
  interval_cases j <;> interval_cases i <;> decide

lemma runReconnects_append (os : List Bool) (b : Bool) (st : ConnectionState) :
    runReconnects (os ++ [b]) st = (attemptReconnect b (runReconnects os st)).2 := by
  simp [runReconnects, List.foldl_append]

lemma trailingFailures_append (os : List Bool) (b : Bool) :
    trailingFailures (os ++ [b]) = if b then 0 else trailingFailures os + 1 := by
  rw [trailingFailures, trailingFailures, List.reverse_append]
  cases b <;> simp [List.takeWhile]

/-- After any outcome sequence started from a fresh (just-connected) state,
the attempt counter equals the number of consecutive failures since the most
recent success. -/
lemma attempts_eq_trailingFailures (os : List Bool) :
    (runReconnects os ⟨false, 0⟩).reconnect_attempts = trailingFailures os := by
  induction os using List.reverseRecOn with
  | nil => rfl
  | append_singleton os b ih =>
    rw [runReconnects_append, trailingFailures_append]
    cases b <;> simp [attemptReconnect, backoffSeconds, ih]

/-- C7: each reconnection try entered with attempt counter n sleeps exactly
BACKOFF_INTERVALS[min(n, 5)] seconds; that schedule is non-decreasing in n
and capped at 60 seconds; the counter resets to 0 on a successful try,
increments by one on a failed try, and — starting from a successful connect —
always equals the number of consecutive failed tries since the last success. -/
theorem c7_backoff_schedule :
    (∀ (st : ConnectionState) (outcome : Bool),
      (attemptReconnect outcome st).1
        = BACKOFF_INTERVALS.getD (min st.reconnect_attempts 5) 0) ∧
    (∀ m n : ℕ, m ≤ n → backoffSeconds m ≤ backoffSeconds n) ∧
    (∀ n : ℕ, backoffSeconds n ≤ 60) ∧
    (∀ st : ConnectionState, (attemptReconnect true st).2.reconnect_attempts = 0) ∧
    (∀ st : ConnectionState,
      (attemptReconnect false st).2.reconnect_attempts = st.reconnect_attempts + 1) ∧
    (∀ outcomes : List Bool,
      (runReconnects outcomes ⟨false, 0⟩).reconnect_attempts
        = trailingFailures outcomes) := by
  refine ⟨?_, ?_, ?_, ?_, ?_, ?_⟩
  · intro st outcome
    cases outcome <;> rfl
  · intro m n h
    exact backoffSeconds_mono h
  · exact backoffSeconds_le_60
  · intro st
    rfl
  · intro st
    rfl
  · exact attempts_eq_trailingFailures

/-- C7 witness: monotonicity instantiated at attempts 1 and 3, and the
counter semantics on the outcome sequence fail, success, fail, fail. -/
theorem c7_backoff_schedule_witness :
    backoffSeconds 1 ≤ backoffSeconds 3 ∧
    (runReconnects [false, true, false, false] ⟨false, 0⟩).reconnect_attempts
      = trailingFailures [false, true, false, false] :=
  ⟨c7_backoff_schedule.2.1 1 3 (by decide),
   c7_backoff_schedule.2.2.2.2.2 [false, true, false, false]⟩

/-- C8: on a tick whose time of day lies within the exact bounds of a loaded
break for the current shift, no cycle-time rows are persisted, while the TA
and quality-counter tables receive exactly the rows they receive on a tick
(same data, same clock) whose schedule puts it outside every break window —
and such an outside tick does persist its cycle rows. -/
theorem c8_break_suppresses_cycle_persistence (breaks breaks2 : List BreakDef)
    (now : ℤ) (cycles : List CycleReading) (ta_data : List TASnapshot)
    (counters : Option QualityCounters) (det : DetectorState) (st : Store)
    (hin : ∃ brk ∈ breaks, brk.shift_number = findBreakShift (todOf now) ∧
      brk.start_time ≤ todOf now ∧ todOf now ≤ brk.end_time)
    (hout : ∀ brk ∈ breaks2, ¬ (brk.shift_number = findBreakShift (todOf now) ∧
      brk.start_time ≤ todOf now ∧ todOf now ≤ brk.end_time)) :
    (collectOnce breaks now cycles ta_data counters det st).2.cycle_times
        = st.cycle_times ∧
    (collectOnce breaks now cycles ta_data counters det st).2.technical_availability
        = storeTAData now ta_data st.technical_availability ∧
    (collectOnce breaks now cycles ta_data counters det st).2.quality_counters
        = storeQualityCounters now counters st.quality_counters ∧
    (collectOnce breaks2 now cycles ta_data counters det st).2.cycle_times
        = storeCycleTimes now cycles st.cycle_times ∧
    (collectOnce breaks now cycles ta_data counters det st).2.technical_availability
        = (collectOnce breaks2 now cycles ta_data counters det st).2.technical_availability ∧
    (collectOnce breaks now cycles ta_data counters det st).2.quality_counters
        = (collectOnce breaks2 now cycles ta_data counters det st).2.quality_counters := by
  have h1 : isInScheduledBreakTime breaks (todOf now) = true := by
    rw [isInScheduledBreakTime, List.any_eq_true]
    rcases hin with ⟨brk, hmem, hsh, hs, he⟩
    exact ⟨brk, hmem, by simp [hsh, hs, he]⟩
  have h2 : isInScheduledBreakTime breaks2 (todOf now) = false := by
    rw [← Bool.not_eq_true, isInScheduledBreakTime, List.any_eq_true]
    rintro ⟨brk, hmem, hb⟩
    simp only [Bool.and_eq_true, decide_eq_true_eq] at hb
    exact hout brk hmem ⟨hb.1.1, hb.1.2, hb.2⟩
  refine ⟨?_, ?_, ?_, ?_, ?_, ?_⟩ <;> simp [collectOnce, h1, h2]

/-- C8 witness: a tick at 10:01:00 inside the Morning break window versus the
same tick under an empty schedule. -/
theorem c8_break_suppresses_cycle_persistence_witness :
    (∃ brk ∈ [brkMorning], brk.shift_number = findBreakShift (todOf 36060) ∧
      brk.start_time ≤ todOf 36060 ∧ todOf 36060 ≤ brk.end_time) ∧
    (collectOnce [brkMorning] 36060 [] [] none initDetector
      ⟨[], [], [], []⟩).2.cycle_times = (⟨[], [], [], []⟩ : Store).cycle_times :=
  ⟨by decide,
   (c8_break_suppresses_cycle_persistence [brkMorning] [] 36060 [] [] none initDetector
      ⟨[], [], [], []⟩ (by decide) (by simp)).1⟩

/-- C10: an empty snapshot batch (every field read failed, e.g. no live
session handle) makes freeze detection return not-frozen without touching the
stored previous key or the consecutive count, and when the detector is inside
a tracked break, that single empty-batch tick closes the open record with
`end_time = now` and clears the in-break state. -/
theorem c10_empty_batch_closes_break :
    (∀ fz : FreezeState, checkFrozen [] fz = (false, fz)) ∧
    (∀ (breaks : List BreakDef) (now : ℤ) (st : DetectorState) (db : List BreakRow)
       (bid : ℕ) (scheduled : BreakDef),
      st.in_break = true → st.current_break_id = some bid →
      st.current_scheduled = some scheduled →
      process breaks now [] st db
        = ({ st with
              in_break := false
              break_detected_at := none
              current_scheduled := none
              current_break_id := none },
           updateBreakEnd bid scheduled now db)) ∧
    (∀ (breaks : List BreakDef) (now : ℤ) (st : DetectorState) (db : List BreakRow)
       (bid : ℕ) (scheduled : BreakDef) (r : BreakRow),
      st.in_break = true → st.current_break_id = some bid →
      st.current_scheduled = some scheduled → r ∈ db → r.id = bid →
      { r with
          end_time := some now
          duration_minutes := some (Int.fdiv (now - r.start_time) 60)
          late_end_minutes := some (lateEndMinutesStored scheduled now) }
        ∈ (process breaks now [] st db).2) := by
  refine ⟨fun fz => rfl, ?_, ?_⟩
  · intro breaks now st db bid scheduled hib hbid hsched
    rw [process]
    simp only [checkFrozen, hib, hbid, hsched]
    norm_num
  · intro breaks now st db bid scheduled r hib hbid hsched hr hrid
    rw [process]
    simp only [checkFrozen, hib, hbid, hsched]
    norm_num
    rw [updateBreakEnd]
    refine List.mem_map.mpr ⟨r, hr, ?_⟩
    rw [if_pos hrid]

/-- C10 witness: an empty batch while the Morning break of `inBreakDet` is
open closes row 1 at the tick timestamp. -/
theorem c10_empty_batch_closes_break_witness :
    process [] 36690 [] inBreakDet [openMorningRow]
      = ({ inBreakDet with
            in_break := false
            break_detected_at := none
            current_scheduled := none
            current_break_id := none },
         updateBreakEnd 1 brkMorning 36690 [openMorningRow]) :=
  c10_empty_batch_closes_break.2.1 [] 36690 inBreakDet [openMorningRow] 1 brkMorning
    rfl rfl rfl

end DataCapture
